import Mathlib

/-!
Verification of the blog.joshbranchaud.com repository.

The repository consists of a single configuration module
(`src/config/index.js`) exporting one flat object literal, and five
MDX content documents, each beginning with a YAML front-matter header
(`date`, `title`, `categories`) followed by free-form prose.

The configuration object is embedded as an association list from field
names to JavaScript values (`JSValue`), transcribed literally from the
object literal in `src/config/index.js` (commented-out fields are not
part of the object and are therefore absent from the list).  Each
content document is embedded as a `ContentDoc`: its path and the
front-matter header transcribed from the first lines of the file.
-/

/-- A JavaScript value, as it can appear as a field of an exported
object literal: string, number, boolean, array or nested object. -/
inductive JSValue where
  | str (s : String)
  | num (n : Int)
  | bool (b : Bool)
  | arr (vs : List JSValue)
  | obj (fields : List (String × JSValue))
deriving Repr

/-- Decidable equality for `JSValue` restricted to the non-nested
constructors is all we need; full structural equality is derived. -/
def JSValue.isStr : JSValue → Bool
  | .str _ => true
  | _ => false

/-- The string payload of a `JSValue`, when it is a string. -/
def JSValue.asStr : JSValue → Option String
  | .str s => some s
  | _ => none

/-- Property lookup on an object modelled as an association list:
the first binding of the key wins, a missing key yields `none`
(JavaScript `undefined`). -/
def lookupKey {α : Type} (kvs : List (String × α)) (k : String) : Option α :=
  match kvs with
  | [] => none
  | (k2, v) :: rest => if k2 == k then some v else lookupKey rest k

/-- The object exported by `src/config/index.js`, field for field in
source order.  The fields `siteFBAppID`, `ogSiteName` and
`googleAnalyticsID` appear in the file only inside comments, so the
exported object does not define them. -/
def config : List (String × JSValue) :=
  [ ("pathPrefix", .str "/"),
    ("siteTitle", .str "Code Words"),
    ("siteTitleAlt", .str "Code Words - Josh Branchaud"),
    ("siteTitleManifest", .str "Code Words"),
    ("siteUrl", .str "https://blog.joshbranchaud.com"),
    ("siteLanguage", .str "en"),
    ("siteHeadline", .str "Learning in public, writing it down"),
    ("siteBanner", .str "/social/banner.jpg"),
    ("favicon", .str "src/favicon.png"),
    ("siteDescription",
      .str "Learning in public, writing it down. A blog written by Josh Branchaud"),
    ("author", .str "Josh Branchaud"),
    ("siteLogo", .str "/social/logo.png"),
    ("userTwitter", .str "@jbrancha"),
    ("ogLanguage", .str "en_US"),
    ("themeColor", .str "#3498DB"),
    ("backgroundColor", .str "#2b2e3c") ]

/-- A value of a YAML front-matter field: a scalar string or a list of
strings (the `categories` block). -/
inductive FMValue where
  | str (s : String)
  | list (vs : List String)
deriving Repr

/-- A content document: its repository path and the front-matter
header that the document begins with, transcribed from the source. -/
structure ContentDoc where
  path : String
  frontMatter : List (String × FMValue)

/-- Front matter of `src/blog/react-loop-2019/index.mdx`, lines 1-7. -/
def reactLoop2019 : ContentDoc :=
  { path := "src/blog/react-loop-2019/index.mdx",
    frontMatter :=
      [ ("date", .str "2019-06-21"),
        ("title", .str "An Incomplete Overview of React Loop 2019"),
        ("categories", .list ["React", "Conference"]) ] }

/-- Front matter of the unnamed document (Formik Connected
Components), lines 1-8. -/
def formikConnected : ContentDoc :=
  { path := "src/unnamed/part_000",
    frontMatter :=
      [ ("date", .str "2019-05-25"),
        ("title", .str "Formik Connected Components"),
        ("categories", .list ["React", "Formik", "JavaScript"]) ] }

/-- Front matter of
`src/blog/ensure-column-relationships-with-check-constraints/index.mdx`,
lines 1-6. -/
def checkConstraints : ContentDoc :=
  { path := "src/blog/ensure-column-relationships-with-check-constraints/index.mdx",
    frontMatter :=
      [ ("date", .str "2019-11-02"),
        ("title", .str "Enforce Column Relationships With Check Constraints"),
        ("categories", .list ["PostgreSQL"]) ] }

/-- Front matter of
`src/blog/migrating-data-along-with-the-schema/index.mdx`, lines 1-7. -/
def migratingData : ContentDoc :=
  { path := "src/blog/migrating-data-along-with-the-schema/index.mdx",
    frontMatter :=
      [ ("date", .str "2019-05-22"),
        ("title", .str "Migrating Data along with the Schema"),
        ("categories", .list ["Rails", "PostgreSQL"]) ] }

/-- Front matter of the fifth repository document (A Custom Hook For
Loading State), a complete MDX article whose filename is unknown,
staged after the document separator in the migrating-data source
file. -/
def customHookLoadingState : ContentDoc :=
  { path := "unnamed (staged after migrating-data-along-with-the-schema)",
    frontMatter :=
      [ ("date", .str "2019-06-08"),
        ("title", .str "A Custom Hook For Loading State"),
        ("categories", .list ["React", "Hooks"]) ] }

/-- All content documents of the repository. -/
def contentDocs : List ContentDoc :=
  [reactLoop2019, formikConnected, checkConstraints, migratingData,
    customHookLoadingState]

/-- A front-matter header defines a field when the key is bound in it. -/
def definesField (d : ContentDoc) (k : String) : Bool :=
  (lookupKey d.frontMatter k).isSome

/-- Decimal value of a digit string (callers guard that all characters
are digits). -/
def digitsVal (cs : List Char) : Nat :=
  cs.foldl (fun a c => a * 10 + (c.toNat - 48)) 0

/-- Whether a decimal digit. -/
def isDigitChar (c : Char) : Bool :=
  48 ≤ c.toNat && c.toNat ≤ 57

/-- Split a character list on the dash character; dashes separate
groups, so n dashes yield n + 1 groups. -/
def splitDash : List Char → List (List Char)
  | [] => [[]]
  | c :: rest =>
    if c == Char.ofNat 45 then [] :: splitDash rest
    else
      match splitDash rest with
      | [] => [[c]]
      | g :: gs => (c :: g) :: gs

/-- Whether the second character list starts with the first. -/
def leadsWith : List Char → List Char → Bool
  | [], _ => true
  | _ :: _, [] => false
  | p :: ps, c :: cs => p == c && leadsWith ps cs

/-- Gregorian leap-year rule. -/
def isLeapYear (y : Nat) : Bool :=
  (y % 4 == 0 && y % 100 != 0) || y % 400 == 0

/-- Number of days in month `m` of year `y` (months numbered 1-12). -/
def daysInMonth (y m : Nat) : Nat :=
  if m == 2 then (if isLeapYear y then 29 else 28)
  else if m == 4 || m == 6 || m == 9 || m == 11 then 30
  else 31

/-- A string is a syntactically valid calendar date in the form
YYYY-MM-DD: three dash-separated all-digit groups of widths 4, 2, 2,
with a month in 1-12 and a day within that month of that year. -/
def isValidDate (s : String) : Bool :=
  match splitDash s.data with
  | [ys, ms, ds] =>
    ys.length == 4 && ms.length == 2 && ds.length == 2 &&
    ys.all isDigitChar && ms.all isDigitChar && ds.all isDigitChar &&
    1 ≤ digitsVal ms && digitsVal ms ≤ 12 &&
    1 ≤ digitsVal ds && digitsVal ds ≤ daysInMonth (digitsVal ys) (digitsVal ms)
  | _ => false

/-- The `date` field of a document is present and a valid date. -/
def hasValidDate (d : ContentDoc) : Bool :=
  match lookupKey d.frontMatter "date" with
  | some (.str s) => isValidDate s
  | _ => false

/-- Whether a hexadecimal digit. -/
def isHexDigitChar (c : Char) : Bool :=
  isDigitChar c || (97 ≤ c.toNat && c.toNat ≤ 102) ||
    (65 ≤ c.toNat && c.toNat ≤ 70)

/-- A 7-character hex color: the character # followed by exactly six
hexadecimal digits. -/
def isHexColor7 (s : String) : Bool :=
  match s.data with
  | c :: rest => c == Char.ofNat 35 && rest.length == 6 && rest.all isHexDigitChar
  | [] => false

/-- An absolute https URL that does not end with a trailing slash:
the https scheme followed by a non-empty remainder whose last
character is not the slash character. -/
def isHttpsNoTrailingSlash (s : String) : Bool :=
  leadsWith ("https://".data) s.data && s.data.length > 8 &&
    (match s.data.getLast? with
      | some c => !(c == Char.ofNat 47)
      | none => false)

/-- The repository contains no code of its own that reads or modifies
the exported configuration object: the config module is its only
mention, so the list of configuration-mutating operations found in the
repository is empty. -/
def repoConfigOps : List (List (String × JSValue) → List (String × JSValue)) :=
  []

/-- Applying a list of operations in order. -/
def applyOps {α : Type} (ops : List (α → α)) (x : α) : α :=
  ops.foldl (fun a f => f a) x

/-- Evaluating (loading) the configuration module: the module body is
a single object literal assigned to the module export, so every
evaluation returns the constant `config`. -/
def loadConfigModule : Unit → List (String × JSValue) :=
  fun _ => config

/-- C1: every content document begins with a front-matter header that
defines all three fields date, title and categories. -/
theorem every_doc_defines_date_title_categories :
    contentDocs.all (fun d =>
      definesField d "date" && definesField d "title" &&
        definesField d "categories") = true := by
  decide

/-- C2: every field value of the exported configuration object is a
string; no value of any other type occurs. -/
theorem config_values_all_strings :
    config.all (fun kv => kv.2.isStr) = true := by
  decide

/-- C3: the exported configuration object defines each of the
recognized fields pathPrefix, siteTitle, siteUrl, siteDescription,
author, siteLogo, themeColor, backgroundColor, and the social-handle
field userTwitter. -/
theorem config_defines_recognized_fields :
    (["pathPrefix", "siteTitle", "siteUrl", "siteDescription", "author",
      "siteLogo", "themeColor", "backgroundColor", "userTwitter"].all
      (fun k => (lookupKey config k).isSome)) = true := by
  decide

/-- C4: the front-matter date value of every content document parses
as a syntactically valid calendar date in the form YYYY-MM-DD. -/
theorem every_doc_has_valid_date :
    contentDocs.all hasValidDate = true := by
  decide

/-- C5: for every content document the front-matter categories list is
non-empty and names at least one of React, PostgreSQL, Rails. -/
theorem every_doc_has_topic_category :
    contentDocs.all (fun d =>
      match lookupKey d.frontMatter "categories" with
      | some (.list cs) =>
        !cs.isEmpty &&
          cs.any (fun c => c == "React" || c == "PostgreSQL" || c == "Rails")
      | _ => false) = true := by
  decide

/-- C6: the configuration object is never mutated: the repository
contains no operation that modifies it, so after applying every
repository operation each field still holds its literal value. -/
theorem config_never_mutated :
    applyOps repoConfigOps config = config ∧
      ∀ k, lookupKey (applyOps repoConfigOps config) k = lookupKey config k := by
  exact ⟨rfl, fun _ => rfl⟩

/-- C7: loading the configuration module is deterministic and
side-effect-free: any two evaluations yield the same object, and that
object is the constant literal. -/
theorem load_config_deterministic :
    (∀ u v : Unit, loadConfigModule u = loadConfigModule v) ∧
      loadConfigModule () = config := by
  exact ⟨fun _ _ => rfl, rfl⟩

/-- C8: the configuration field siteUrl is an absolute https URL with
no trailing slash. -/
theorem siteUrl_https_no_trailing_slash :
    (match lookupKey config "siteUrl" with
      | some (.str s) => isHttpsNoTrailingSlash s
      | _ => false) = true := by
  decide

/-- C9: the configuration fields themeColor and backgroundColor are
each a 7-character hex color string: # followed by exactly six
hexadecimal digits. -/
theorem theme_and_background_are_hex_colors :
    (match lookupKey config "themeColor", lookupKey config "backgroundColor" with
      | some (.str t), some (.str b) => isHexColor7 t && isHexColor7 b
      | _, _ => false) = true := by
  decide

/-- C10: the optional fields siteFBAppID, ogSiteName and
googleAnalyticsID are absent from the configuration object, so looking
them up yields none, while every defined key looks up to its string
value. -/
theorem optional_fields_absent_defined_fields_found :
    lookupKey config "siteFBAppID" = none ∧
      lookupKey config "ogSiteName" = none ∧
      lookupKey config "googleAnalyticsID" = none ∧
      config.all (fun kv =>
        match lookupKey config kv.1 with
        | some v => v.isStr
        | none => false) = true := by
  exact ⟨rfl, rfl, rfl, by decide⟩
